import Mathlib

/-!
# high_chart: the Linux platform-version responder

A shallow embedding of `linux/high_chart_plugin.cc`.

* C strings (`const gchar*`) are lists of byte values; the end of the list
  stands for the terminating NUL, and a NUL byte inside a buffer ends the
  string there, as every C string function sees it.
* The operating system is a parameter: `OS.uname` is the `uname(2)` call,
  which receives the caller's buffer and gives back a return code and the
  buffer as the kernel left it.
* The host messaging layer is explicit state: `Host.responses` is the log of
  responses handed to `fl_method_call_respond`, and `FlBinaryMessenger` is the
  table of method channels.
* Reference counting (`g_object_ref`, `g_object_unref`, `g_autoptr`,
  `g_autofree`) only manages memory and is left out: objects are values.
-/

namespace HighChart

/-! ## C strings -/

/-- ASCII string literal as the bytes of a C string (terminator not included). -/
def lit (s : String) : List Nat := s.toList.map Char.toNat

/-- The string a `char*` denotes: the bytes before the first NUL. -/
def c_str : List Nat → List Nat
  | [] => []
  | b :: bs => if b = 0 then [] else b :: c_str bs

/-- The libc `strcmp`: compares byte by byte, stops at the first difference or
at the terminator of both, and returns the difference of the two bytes. -/
def strcmp : List Nat → List Nat → Int
  | [], [] => 0
  | [], b :: _ => 0 - (b : Int)
  | a :: _, [] => (a : Int)
  | a :: as, b :: bs =>
    if a ≠ b then (a : Int) - (b : Int)
    else if a = 0 then 0
    else strcmp as bs

/-- The glib `g_strdup_printf`, for the conversions this program uses: an
ordinary byte is copied, `%s` (37, 115) copies the next argument up to its
NUL, `%%` gives one percent sign, and a NUL ends the format. -/
def g_strdup_printf : List Nat → List (List Nat) → List Nat
  | [], _ => []
  | [c], _ => if c = 0 then [] else [c]
  | c :: d :: rest, args =>
    if c = 0 then []
    else if c = 37 ∧ d = 115 then
      match args with
      | a :: args' => c_str a ++ g_strdup_printf rest args'
      | [] => g_strdup_printf rest []
    else if c = 37 ∧ d = 37 then 37 :: g_strdup_printf rest args
    else c :: g_strdup_printf (d :: rest) args

/-! ## Flutter values, calls and responses -/

/-- An `FlValue`, the dynamically typed value of the standard codec. -/
inductive FlValue where
  | null
  | bool (b : Bool)
  | int (i : Int)
  | string (s : List Nat)
  | uint8_list (bytes : List Nat)
  deriving DecidableEq, Repr

/-- The `fl_value_new_string` constructor: copies the C string it is given. -/
def fl_value_new_string (value : List Nat) : FlValue :=
  FlValue.string (c_str value)

/-- An `FlMethodResponse`: success, error or not-implemented. -/
inductive FlMethodResponse where
  | success (result : FlValue)
  | error (code : List Nat) (message : List Nat) (details : FlValue)
  | not_implemented
  deriving DecidableEq, Repr

/-- The `fl_method_success_response_new` constructor. -/
def fl_method_success_response_new (result : FlValue) : FlMethodResponse :=
  FlMethodResponse.success result

/-- The `fl_method_not_implemented_response_new` constructor. -/
def fl_method_not_implemented_response_new : FlMethodResponse :=
  FlMethodResponse.not_implemented

/-- An `FlMethodCall`: the method name and the arguments sent with it. -/
structure FlMethodCall where
  name : List Nat
  args : FlValue
  deriving DecidableEq, Repr

/-- The `fl_method_call_get_name` accessor. -/
def fl_method_call_get_name (method_call : FlMethodCall) : List Nat :=
  method_call.name

/-- The host messaging layer as the handler sees it: the responses handed
back so far, oldest first, each with the call it answers. -/
structure Host where
  responses : List (FlMethodCall × FlMethodResponse)
  deriving DecidableEq, Repr

/-- The `fl_method_call_respond` function: hands the response to the host.
A null response is rejected (nothing is sent, `FALSE` is returned). -/
def fl_method_call_respond (method_call : FlMethodCall)
    (response : Option FlMethodResponse) (host : Host) : Bool × Host :=
  match response with
  | none => (false, host)
  | some r => (true, { responses := host.responses ++ [(method_call, r)] })

/-! ## The operating system -/

/-- Length of each `struct utsname` field on Linux. -/
def UTSNAME_LENGTH : Nat := 65

/-- The `struct utsname` of `<sys/utsname.h>`: six character arrays. -/
structure utsname where
  sysname : List Nat
  nodename : List Nat
  release : List Nat
  version : List Nat
  machine : List Nat
  domainname : List Nat
  deriving DecidableEq, Repr

/-- The value of `struct utsname uname_data = {}`: every byte zero. -/
def utsname_zero : utsname :=
  { sysname := List.replicate UTSNAME_LENGTH 0
    nodename := List.replicate UTSNAME_LENGTH 0
    release := List.replicate UTSNAME_LENGTH 0
    version := List.replicate UTSNAME_LENGTH 0
    machine := List.replicate UTSNAME_LENGTH 0
    domainname := List.replicate UTSNAME_LENGTH 0 }

/-- The operating system state the plugin can observe: the `uname` call, from
the buffer passed in to the return code and the buffer afterwards. -/
structure OS where
  uname : utsname → Int × utsname

/-! ## The plugin -/

/-- The `GObject` base instance; the plugin reads none of its fields. -/
structure GObject where
  deriving DecidableEq, Repr

/-- The `_HighChartPlugin` struct: the parent instance and nothing else. -/
structure HighChartPlugin where
  parent_instance : GObject
  deriving DecidableEq, Repr

/-- The `get_platform_version` function of the source. -/
def get_platform_version (os : OS) : FlMethodResponse :=
  let uname_data := utsname_zero
  let uname_data := (os.uname uname_data).2
  let version := g_strdup_printf (lit "Linux %s") [uname_data.version]
  let result := fl_value_new_string version
  fl_method_success_response_new result

/-- The `high_chart_plugin_handle_method_call` function of the source. -/
def high_chart_plugin_handle_method_call (os : OS) (_self : HighChartPlugin)
    (method_call : FlMethodCall) (host : Host) : Host := Id.run do
  let mut response : Option FlMethodResponse := none
  let method := fl_method_call_get_name method_call
  if strcmp method (lit "getPlatformVersion") = 0 then
    response := some (get_platform_version os)
  else
    response := some fl_method_not_implemented_response_new
  return (fl_method_call_respond method_call response host).2

/-! ## Registration -/

/-- An `FlMethodCodec`; the plugin uses the standard one. -/
inductive FlMethodCodec where
  | standard
  deriving DecidableEq, Repr

/-- The `fl_standard_method_codec_new` constructor. -/
def fl_standard_method_codec_new : FlMethodCodec := FlMethodCodec.standard

/-- An `FlMethodChannelMethodCallHandler`: called with the channel (its index
in the messenger), the call and the user data; it acts on the host under the
operating system. -/
abbrev FlMethodChannelMethodCallHandler : Type :=
  Nat → FlMethodCall → HighChartPlugin → OS → Host → Host

/-- An `FlMethodChannel`: name, codec, and the handler once one is set. -/
structure FlMethodChannel where
  name : List Nat
  codec : FlMethodCodec
  handler : Option (FlMethodChannelMethodCallHandler × HighChartPlugin)

/-- An `FlBinaryMessenger`: the method channels created on it, in order. -/
structure FlBinaryMessenger where
  channels : List FlMethodChannel

/-- An `FlPluginRegistrar`: gives access to the messenger. -/
structure FlPluginRegistrar where
  messenger : FlBinaryMessenger

/-- The `fl_plugin_registrar_get_messenger` accessor. -/
def fl_plugin_registrar_get_messenger (registrar : FlPluginRegistrar) :
    FlBinaryMessenger :=
  registrar.messenger

/-- The `fl_method_channel_new` constructor: a new channel without handler on
the messenger; returns the channel (its index) and the messenger. -/
def fl_method_channel_new (messenger : FlBinaryMessenger) (name : List Nat)
    (codec : FlMethodCodec) : Nat × FlBinaryMessenger :=
  (messenger.channels.length,
   { channels := messenger.channels ++
       [{ name := c_str name, codec := codec, handler := none }] })

/-- The `fl_method_channel_set_method_call_handler` function: installs the
handler and its user data on the channel. -/
def fl_method_channel_set_method_call_handler (messenger : FlBinaryMessenger)
    (channel : Nat) (handler : FlMethodChannelMethodCallHandler)
    (user_data : HighChartPlugin) : FlBinaryMessenger :=
  { channels := messenger.channels.modify
      (fun ch => { ch with handler := some (handler, user_data) }) channel }

/-- The `g_object_new (high_chart_plugin_get_type (), nullptr)` call. -/
def high_chart_plugin_new : HighChartPlugin := { parent_instance := {} }

/-- The `method_call_cb` function of the source. -/
def method_call_cb (_channel : Nat) (method_call : FlMethodCall)
    (user_data : HighChartPlugin) (os : OS) (host : Host) : Host :=
  let plugin := user_data
  high_chart_plugin_handle_method_call os plugin method_call host

/-- The `high_chart_plugin_register_with_registrar` function of the source. -/
def high_chart_plugin_register_with_registrar (registrar : FlPluginRegistrar) :
    FlPluginRegistrar :=
  let plugin := high_chart_plugin_new
  let codec := fl_standard_method_codec_new
  let (channel, messenger) :=
    fl_method_channel_new (fl_plugin_registrar_get_messenger registrar)
      (lit "high_chart") codec
  let messenger :=
    fl_method_channel_set_method_call_handler messenger channel method_call_cb plugin
  { messenger := messenger }

/-- The host delivering calls to the plugin instance one after the other. -/
def handle_method_calls (os : OS) (self : HighChartPlugin)
    (calls : List FlMethodCall) (host : Host) : Host :=
  calls.foldl (fun h c => high_chart_plugin_handle_method_call os self c h) host

/-- The response handed back last, if any has been. -/
def last_response (host : Host) : Option FlMethodResponse :=
  (host.responses.getLast?).map Prod.snd

/-! ## Lemmas -/

theorem c_str_idem (l : List Nat) : c_str (c_str l) = c_str l := by
  induction l with
  | nil => rfl
  | cons b bs ih =>
    by_cases hb : b = 0
    · simp [c_str, hb]
    · simp [c_str, hb, ih]

theorem c_str_of_no_nul (l : List Nat) (h : ∀ b ∈ l, b ≠ 0) : c_str l = l := by
  induction l with
  | nil => rfl
  | cons b bs ih =>
    have hb : b ≠ 0 := h b (List.mem_cons_self b bs)
    have hbs : ∀ x ∈ bs, x ≠ 0 := fun x hx => h x (List.mem_cons_of_mem b hx)
    simp [c_str, hb, ih hbs]

theorem c_str_no_nul (l : List Nat) : ∀ b ∈ c_str l, b ≠ 0 := by
  induction l with
  | nil => intro b hb; simp [c_str] at hb
  | cons a as ih =>
    intro b hb
    by_cases ha : a = 0
    · simp [c_str, ha] at hb
    · simp only [c_str, ha, if_false, List.mem_cons] at hb
      rcases hb with rfl | hb
      · exact ha
      · exact ih b hb

theorem strcmp_eq_zero_iff (a b : List Nat) :
    strcmp a b = 0 ↔ c_str a = c_str b := by
  induction a generalizing b with
  | nil =>
    cases b with
    | nil => simp [strcmp, c_str]
    | cons y ys =>
      by_cases hy : y = 0
      · simp [strcmp, c_str, hy]
      · simp [strcmp, c_str, hy]
  | cons x xs ih =>
    cases b with
    | nil =>
      by_cases hx : x = 0
      · simp [strcmp, c_str, hx]
      · simp [strcmp, c_str, hx]
    | cons y ys =>
      by_cases hxy : x = y
      · subst hxy
        by_cases hx : x = 0
        · simp [strcmp, c_str, hx]
        · simp [strcmp, c_str, hx, ih ys]
      · have hne : (x : Int) - (y : Int) ≠ 0 := by omega
        by_cases hx : x = 0
        · by_cases hy : y = 0
          · omega
          · simp [strcmp, c_str, hx, hy, hxy]
            omega
        · by_cases hy : y = 0
          · simp [strcmp, c_str, hx, hy, hxy]
          · simp [strcmp, c_str, hx, hy, hxy, hne]

theorem g_strdup_printf_linux (v : List Nat) :
    g_strdup_printf (lit "Linux %s") [v] = lit "Linux " ++ c_str v := by
  simp [lit, g_strdup_printf]

theorem get_platform_version_eq (os : OS) :
    get_platform_version os = FlMethodResponse.success
      (FlValue.string (lit "Linux " ++ c_str (os.uname utsname_zero).2.version)) := by
  have h : c_str (lit "Linux " ++ c_str (os.uname utsname_zero).2.version)
      = lit "Linux " ++ c_str (os.uname utsname_zero).2.version := by
    simp [lit, c_str, c_str_idem]
  simp only [get_platform_version, g_strdup_printf_linux, fl_value_new_string,
    fl_method_success_response_new, h]

theorem handle_method_call_eq (os : OS) (self : HighChartPlugin)
    (method_call : FlMethodCall) (host : Host) :
    high_chart_plugin_handle_method_call os self method_call host =
      { responses := host.responses ++ [(method_call,
          if c_str method_call.name = lit "getPlatformVersion" then
            get_platform_version os
          else FlMethodResponse.not_implemented)] } := by
  have hl : c_str (lit "getPlatformVersion") = lit "getPlatformVersion" := by decide
  by_cases h : c_str method_call.name = lit "getPlatformVersion"
  · have h0 : strcmp method_call.name (lit "getPlatformVersion") = 0 :=
      (strcmp_eq_zero_iff _ _).2 (by rw [h, hl])
    simp [high_chart_plugin_handle_method_call, fl_method_call_get_name, h0, h,
      fl_method_call_respond, Id.run]
  · have h0 : ¬ strcmp method_call.name (lit "getPlatformVersion") = 0 := by
      intro hz
      exact h (by rw [(strcmp_eq_zero_iff _ _).1 hz, hl])
    simp [high_chart_plugin_handle_method_call, fl_method_call_get_name, h0, h,
      fl_method_call_respond, fl_method_not_implemented_response_new, Id.run]

theorem modify_append_length {α : Type} (f : α → α) (l : List α) (x : α) :
    (l ++ [x]).modify f l.length = l ++ [f x] := by
  induction l with
  | nil => simp [List.modify]
  | cons a as ih =>
    simp only [List.modify] at ih
    simp [List.modify, ih]

theorem handle_method_calls_append (os : OS) (self : HighChartPlugin)
    (calls : List FlMethodCall) (c : FlMethodCall) (host : Host) :
    handle_method_calls os self (calls ++ [c]) host =
      high_chart_plugin_handle_method_call os self c
        (handle_method_calls os self calls host) := by
  simp [handle_method_calls, List.foldl_append]

theorem last_response_handle (os : OS) (self : HighChartPlugin)
    (method_call : FlMethodCall) (host : Host) :
    last_response (high_chart_plugin_handle_method_call os self method_call host) =
      some (if c_str method_call.name = lit "getPlatformVersion" then
              get_platform_version os
            else FlMethodResponse.not_implemented) := by
  simp [handle_method_call_eq, last_response]

/-! ## The claims -/

/-- C1: a call whose name (the C string at the name pointer) is exactly
"getPlatformVersion", with any arguments and under any operating system, is
answered by one Success response whose value is a string of length at least 1. -/
theorem getPlatformVersion_success_nonempty (os : OS) (self : HighChartPlugin)
    (method_call : FlMethodCall) (host : Host)
    (hname : c_str method_call.name = lit "getPlatformVersion") :
    ∃ s : List Nat, 1 ≤ s.length ∧
      (high_chart_plugin_handle_method_call os self method_call host).responses =
        host.responses ++ [(method_call, FlMethodResponse.success (FlValue.string s))] := by
  refine ⟨lit "Linux " ++ c_str (os.uname utsname_zero).2.version, ?_, ?_⟩
  · simp [lit]
  · rw [handle_method_call_eq, if_pos hname, get_platform_version_eq]

/-- Witness of C1: the call "getPlatformVersion" with an integer argument,
under an operating system whose uname fails. -/
theorem getPlatformVersion_success_nonempty_witness :
    c_str (FlMethodCall.mk (lit "getPlatformVersion") (FlValue.int 7)).name
        = lit "getPlatformVersion" ∧
    ∃ s : List Nat, 1 ≤ s.length ∧
      (high_chart_plugin_handle_method_call (OS.mk (fun u => (-1, u)))
          (HighChartPlugin.mk {}) (FlMethodCall.mk (lit "getPlatformVersion") (FlValue.int 7))
          (Host.mk [])).responses =
        (Host.mk []).responses ++
          [(FlMethodCall.mk (lit "getPlatformVersion") (FlValue.int 7),
            FlMethodResponse.success (FlValue.string s))] :=
  ⟨by decide, getPlatformVersion_success_nonempty _ _ _ _ (by decide)⟩

/-- C2: a call whose name (the C string at the name pointer) is any string
other than exactly "getPlatformVersion" is answered by NotImplemented. -/
theorem other_name_not_implemented (os : OS) (self : HighChartPlugin)
    (method_call : FlMethodCall) (host : Host)
    (hname : c_str method_call.name ≠ lit "getPlatformVersion") :
    (high_chart_plugin_handle_method_call os self method_call host).responses =
      host.responses ++ [(method_call, FlMethodResponse.not_implemented)] := by
  rw [handle_method_call_eq, if_neg hname]

/-- Witness of C2: the empty name, a name differing in letter case only, and
names with "getPlatformVersion" as a proper prefix and as a proper suffix. -/
theorem other_name_not_implemented_witness :
    (c_str (FlMethodCall.mk (lit "") FlValue.null).name ≠ lit "getPlatformVersion" ∧
      (high_chart_plugin_handle_method_call (OS.mk (fun u => (0, u))) (HighChartPlugin.mk {})
          (FlMethodCall.mk (lit "") FlValue.null) (Host.mk [])).responses =
        (Host.mk []).responses ++
          [(FlMethodCall.mk (lit "") FlValue.null, FlMethodResponse.not_implemented)]) ∧
    (c_str (FlMethodCall.mk (lit "getplatformversion") FlValue.null).name ≠ lit "getPlatformVersion" ∧
      (high_chart_plugin_handle_method_call (OS.mk (fun u => (0, u))) (HighChartPlugin.mk {})
          (FlMethodCall.mk (lit "getplatformversion") FlValue.null) (Host.mk [])).responses =
        (Host.mk []).responses ++
          [(FlMethodCall.mk (lit "getplatformversion") FlValue.null, FlMethodResponse.not_implemented)]) ∧
    (c_str (FlMethodCall.mk (lit "getPlatformVersion2") FlValue.null).name ≠ lit "getPlatformVersion" ∧
      (high_chart_plugin_handle_method_call (OS.mk (fun u => (0, u))) (HighChartPlugin.mk {})
          (FlMethodCall.mk (lit "getPlatformVersion2") FlValue.null) (Host.mk [])).responses =
        (Host.mk []).responses ++
          [(FlMethodCall.mk (lit "getPlatformVersion2") FlValue.null, FlMethodResponse.not_implemented)]) ∧
    (c_str (FlMethodCall.mk (lit "xgetPlatformVersion") FlValue.null).name ≠ lit "getPlatformVersion" ∧
      (high_chart_plugin_handle_method_call (OS.mk (fun u => (0, u))) (HighChartPlugin.mk {})
          (FlMethodCall.mk (lit "xgetPlatformVersion") FlValue.null) (Host.mk [])).responses =
        (Host.mk []).responses ++
          [(FlMethodCall.mk (lit "xgetPlatformVersion") FlValue.null, FlMethodResponse.not_implemented)]) :=
  ⟨⟨by decide, other_name_not_implemented _ _ _ _ (by decide)⟩,
   ⟨by decide, other_name_not_implemented _ _ _ _ (by decide)⟩,
   ⟨by decide, other_name_not_implemented _ _ _ _ (by decide)⟩,
   ⟨by decide, other_name_not_implemented _ _ _ _ (by decide)⟩⟩

/-- C3: under every operating system the string in the Success response of
get_platform_version is "Linux", one space, and the version field that uname
reports, with nothing else; the version "5.15.0-generic" gives
"Linux 5.15.0-generic". -/
theorem get_platform_version_format :
    (∀ os : OS, get_platform_version os = FlMethodResponse.success
      (FlValue.string (lit "Linux" ++ lit " " ++ c_str (os.uname utsname_zero).2.version))) ∧
    get_platform_version
        (OS.mk (fun u => (0, { u with version := lit "5.15.0-generic" ++ List.replicate 51 0 })))
      = FlMethodResponse.success (FlValue.string (lit "Linux 5.15.0-generic")) := by
  constructor
  · intro os
    rw [get_platform_version_eq]
    rfl
  · rw [get_platform_version_eq]
    decide

/-- C4: under a fixed operating system the response to a call is the same
whatever calls were handled before it, on whatever host state and plugin
instance: it does not depend on how many or which calls came first, so the
same call handled twice gets equal responses. -/
theorem response_independent_of_history (os : OS) (self₁ self₂ : HighChartPlugin)
    (method_call : FlMethodCall) (before₁ before₂ : List FlMethodCall)
    (host₁ host₂ : Host) :
    last_response (handle_method_calls os self₁ (before₁ ++ [method_call]) host₁) =
      last_response (handle_method_calls os self₂ (before₂ ++ [method_call]) host₂) ∧
    last_response (handle_method_calls os self₁ (before₁ ++ [method_call]) host₁) =
      last_response (high_chart_plugin_handle_method_call os self₁ method_call (Host.mk [])) ∧
    (last_response (handle_method_calls os self₁ (before₁ ++ [method_call]) host₁)).isSome := by
  simp only [handle_method_calls_append, last_response_handle]
  simp

/-- C5: every call is answered by Success or by NotImplemented, never by
Error, and by Success exactly when the name is "getPlatformVersion". -/
theorem response_success_or_not_implemented (os : OS) (self : HighChartPlugin)
    (method_call : FlMethodCall) (host : Host) :
    ∃ r : FlMethodResponse,
      (high_chart_plugin_handle_method_call os self method_call host).responses =
        host.responses ++ [(method_call, r)] ∧
      ((∃ v, r = FlMethodResponse.success v) ∨ r = FlMethodResponse.not_implemented) ∧
      (∀ code message details, r ≠ FlMethodResponse.error code message details) ∧
      ((∃ v, r = FlMethodResponse.success v) ↔
        c_str method_call.name = lit "getPlatformVersion") := by
  by_cases h : c_str method_call.name = lit "getPlatformVersion"
  · refine ⟨get_platform_version os, ?_, ?_, ?_, ?_⟩
    · rw [handle_method_call_eq, if_pos h]
    · exact Or.inl ⟨_, get_platform_version_eq os⟩
    · intro code message details
      rw [get_platform_version_eq]
      exact fun hc => FlMethodResponse.noConfusion hc
    · exact ⟨fun _ => h, fun _ => ⟨_, get_platform_version_eq os⟩⟩
  · refine ⟨FlMethodResponse.not_implemented, ?_, Or.inr rfl, ?_, ?_⟩
    · rw [handle_method_call_eq, if_neg h]
    · intro code message details hc
      exact FlMethodResponse.noConfusion hc
    · constructor
      · rintro ⟨v, hv⟩
        exact FlMethodResponse.noConfusion hv
      · intro hn
        exact absurd hn h

/-- C6: registration creates exactly one method channel on the messenger, the
channel is named "high_chart", and the handler installed on it passes every
incoming call to high_chart_plugin_handle_method_call. -/
theorem register_creates_high_chart_channel (registrar : FlPluginRegistrar) :
    (high_chart_plugin_register_with_registrar registrar).messenger.channels.length =
      registrar.messenger.channels.length + 1 ∧
    ∃ ch : FlMethodChannel,
      (high_chart_plugin_register_with_registrar registrar).messenger.channels =
        registrar.messenger.channels ++ [ch] ∧
      ch.name = lit "high_chart" ∧
      ∃ (handler : FlMethodChannelMethodCallHandler) (user_data : HighChartPlugin),
        ch.handler = some (handler, user_data) ∧
        ∀ (channel : Nat) (method_call : FlMethodCall) (os : OS) (host : Host),
          handler channel method_call user_data os host =
            high_chart_plugin_handle_method_call os user_data method_call host := by
  have hreg : (high_chart_plugin_register_with_registrar registrar).messenger.channels =
      registrar.messenger.channels ++
        [{ name := lit "high_chart", codec := FlMethodCodec.standard,
           handler := some (method_call_cb, high_chart_plugin_new) }] := by
    have hl : c_str (lit "high_chart") = lit "high_chart" := by decide
    simp only [high_chart_plugin_register_with_registrar, fl_method_channel_new,
      fl_method_channel_set_method_call_handler, fl_plugin_registrar_get_messenger,
      fl_standard_method_codec_new, modify_append_length, hl]
  refine ⟨by rw [hreg]; simp, _, hreg, rfl, method_call_cb, high_chart_plugin_new, rfl, ?_⟩
  intro channel method_call os host
  rfl

/-- C7: handling a call hands exactly one response back to the host, on the
getPlatformVersion branch and on the not-implemented branch alike: the log of
responses grows by exactly one entry, which answers this call. -/
theorem exactly_one_response (os : OS) (self : HighChartPlugin)
    (method_call : FlMethodCall) (host : Host) :
    (high_chart_plugin_handle_method_call os self method_call host).responses.length =
      host.responses.length + 1 ∧
    ∃ r : FlMethodResponse,
      (high_chart_plugin_handle_method_call os self method_call host).responses =
        host.responses ++ [(method_call, r)] := by
  rw [handle_method_call_eq]
  exact ⟨by simp, _, rfl⟩

/-- C8: two calls with the same name and different arguments get equal
responses under the same operating system. -/
theorem response_independent_of_args (os : OS) (self : HighChartPlugin)
    (call₁ call₂ : FlMethodCall) (host₁ host₂ : Host)
    (hname : call₁.name = call₂.name) :
    last_response (high_chart_plugin_handle_method_call os self call₁ host₁) =
      last_response (high_chart_plugin_handle_method_call os self call₂ host₂) := by
  rw [last_response_handle, last_response_handle, hname]

/-- Witness of C8: "getPlatformVersion" called with no argument and with a
string argument. -/
theorem response_independent_of_args_witness :
    (FlMethodCall.mk (lit "getPlatformVersion") FlValue.null).name =
      (FlMethodCall.mk (lit "getPlatformVersion") (FlValue.string (lit "x"))).name ∧
    FlValue.null ≠ FlValue.string (lit "x") ∧
    last_response (high_chart_plugin_handle_method_call (OS.mk (fun u => (0, u)))
        (HighChartPlugin.mk {}) (FlMethodCall.mk (lit "getPlatformVersion") FlValue.null)
        (Host.mk [])) =
      last_response (high_chart_plugin_handle_method_call (OS.mk (fun u => (0, u)))
        (HighChartPlugin.mk {})
        (FlMethodCall.mk (lit "getPlatformVersion") (FlValue.string (lit "x"))) (Host.mk [])) :=
  ⟨rfl, by decide, response_independent_of_args _ _ _ _ _ _ rfl⟩

/-- C9: when uname leaves the zero-initialised buffer untouched, or reports an
empty version, whatever code it returns, get_platform_version returns Success
with exactly the 6-character string "Linux ". -/
theorem get_platform_version_uname_failure (os : OS)
    (h : (os.uname utsname_zero).2 = utsname_zero ∨
         c_str (os.uname utsname_zero).2.version = []) :
    get_platform_version os = FlMethodResponse.success (FlValue.string (lit "Linux ")) ∧
    (lit "Linux ").length = 6 := by
  have hv : c_str (os.uname utsname_zero).2.version = [] := by
    rcases h with h | h
    · rw [h]; decide
    · exact h
  rw [get_platform_version_eq, hv]
  exact ⟨by simp, by decide⟩

/-- Witness of C9: an operating system whose uname returns -1 and writes
nothing. -/
theorem get_platform_version_uname_failure_witness :
    (((OS.mk (fun u => (-1, u))).uname utsname_zero).2 = utsname_zero ∨
      c_str ((OS.mk (fun u => (-1, u))).uname utsname_zero).2.version = []) ∧
    get_platform_version (OS.mk (fun u => (-1, u))) =
      FlMethodResponse.success (FlValue.string (lit "Linux ")) ∧
    (lit "Linux ").length = 6 :=
  ⟨Or.inl rfl, get_platform_version_uname_failure _ (Or.inl rfl)⟩

end HighChart
